import Mathlib

set_option maxHeartbeats 1000000

/-!
Verification of the Trusted Hybrid Decision Engine and of the Gmail
extension helpers of the phishing-detection-tool repository.

The decision engine itself lives in url_model/models/hybrid_engine_simple.py,
which is not part of the source tree available here; its behaviour is
modelled from the specification (sections 3 and 4 of the spec and Step 7 of
the README).  The Gmail extension helpers (parseRawEmail, isGmailEmailOpen,
getGmailEmailId) are translated directly from the JavaScript sources.

Numeric scores are embedded as rationals; JavaScript strings are embedded
as Lean strings, with character-level helpers on lists of characters.
-/

-- ════════════════════════════════════════════════════════════════
-- Part 1.  Trusted Hybrid Decision Engine (modelled from the spec)
-- ════════════════════════════════════════════════════════════════

/-- Modelled from the spec: error taxonomy of section 7 of the spec
(ValidationError, RangeError, ConfigurationError).  The engine code
url_model/models/hybrid_engine_simple.py is missing from the source tree. -/
inductive EngineError where
  | validationError
  | rangeError
  | configurationError
deriving DecidableEq

/-- Modelled from the spec: a FeatureVector is a mapping from feature names
to numeric values; the engine code is missing from the source tree.
Absent keys default to 0 through getF below. -/
abbrev FeatureVector : Type := List (String × ℚ)

/-- Modelled from the spec: feature access with the documented
missing-key-defaults-to-zero rule. -/
def getF (fv : FeatureVector) (k : String) : ℚ :=
  (List.lookup k fv).getD 0

/-- Modelled from the spec: a feature predicate holds when the stored numeric
value is non-zero (booleans are represented as 0 or 1). -/
def featTrue (fv : FeatureVector) (k : String) : Bool :=
  getF fv k != 0

/-- Modelled from the spec: the four recognized hardening headers tracked by
the TrustScorer (CSP, HSTS, X-Frame-Options, X-Content-Type-Options). -/
def securityHeaderKeys : List String :=
  ["web_has_csp", "web_has_hsts", "web_has_xfo", "web_has_xcto"]

/-- Modelled from the spec: count of recognized security headers present. -/
def headerCount (fv : FeatureVector) : ℕ :=
  (securityHeaderKeys.filter (fun k => featTrue fv k)).length

/-- Modelled from the spec: a single gated positive contribution of the
TrustScorer weight table. -/
def contrib (b : Bool) (w : ℚ) : ℚ :=
  if b then w else 0

/-- Modelled from the spec: the uncapped sum of the weighted positive
contributions of the TrustScorer (section 4.1 of the spec); the engine code
is missing from the source tree.  The security-header contribution is
proportional to the header count out of the four tracked headers, scaled to
the 0.10 budget. -/
def trustRaw (fv : FeatureVector) : ℚ :=
  contrib (featTrue fv "https") (15/100) +
  contrib (featTrue fv "web_ssl_valid") (15/100) +
  contrib (featTrue fv "gov_edu_domain") (20/100) +
  (headerCount fv : ℚ) / 4 * (10/100) +
  contrib (featTrue fv "web_has_favicon") (5/100) +
  contrib (!featTrue fv "abnormal_url") (10/100) +
  contrib (!featTrue fv "having_ip_address") (5/100) +
  contrib (!featTrue fv "Shortining_Service") (5/100) +
  contrib (!featTrue fv "phish_brand_hijack") (5/100) +
  contrib (!featTrue fv "phish_adv_suspicious_tld") (5/100)

/-- Modelled from the spec: TrustScore is the contribution sum capped
at 1.0. -/
def trustScore (fv : FeatureVector) : ℚ :=
  min 1 (trustRaw fv)

/-- Modelled from the spec: process-wide configuration constants the spec
leaves open (the STRONG and BASIC TrustScore cutoffs and the minimum
security-header bar of the SafetyGate). -/
structure EngineConfig where
  strongCut : ℚ
  basicCut : ℚ
  minHeaders : ℕ

/-- Modelled from the spec: a default configuration instance. -/
def defaultConfig : EngineConfig :=
  { strongCut := 7/10, basicCut := 1/2, minHeaders := 2 }

/-- Modelled from the spec: the SafetyGate of section 4.2 of the spec; the
engine code is missing from the source tree.  It requires the simultaneous
absence of every known phishing indicator and a minimum count of security
headers present. -/
def safetyGate (cfg : EngineConfig) (fv : FeatureVector) : Bool :=
  !featTrue fv "having_ip_address" &&
  !featTrue fv "Shortining_Service" &&
  !featTrue fv "phish_brand_hijack" &&
  !featTrue fv "brand_in_subdomain" &&
  !featTrue fv "phish_adv_suspicious_tld" &&
  !featTrue fv "excessive_encoding" &&
  decide (cfg.minHeaders ≤ headerCount fv)

/-- Modelled from the spec: the DomainTrustTier enumeration. -/
inductive DomainTrustTier where
  | NONE
  | BASIC
  | STRONG
  | VERY_STRONG
deriving DecidableEq

/-- Modelled from the spec: each tier owns a fixed OverrideFactor. -/
def overrideFactor : DomainTrustTier → ℚ
  | .VERY_STRONG => 95/100
  | .STRONG => 80/100
  | .BASIC => 65/100
  | .NONE => 0

/-- Modelled from the spec: the TierSelector of section 4.3 of the spec,
privilege-first sequential dispatch; the engine code is missing from the
source tree. -/
def tierSelector (cfg : EngineConfig) (trust : ℚ)
    (gate govEdu https ssl : Bool) : DomainTrustTier :=
  if govEdu && https && ssl && gate then .VERY_STRONG
  else if decide (cfg.strongCut ≤ trust) && https && ssl && gate then .STRONG
  else if decide (cfg.basicCut ≤ trust) && gate then .BASIC
  else .NONE

/-- Modelled from the spec: the raw predicate of the VERY_STRONG tier. -/
def predVeryStrong (gate govEdu https ssl : Bool) : Prop :=
  govEdu = true ∧ https = true ∧ ssl = true ∧ gate = true

/-- Modelled from the spec: the constructed predicate of the STRONG tier,
made mutually exclusive with the higher tier by construction (section 9 of
the spec represents the ordered dispatch as mutually exclusive predicates). -/
def predStrong (cfg : EngineConfig) (trust : ℚ)
    (gate govEdu https ssl : Bool) : Prop :=
  (cfg.strongCut ≤ trust ∧ https = true ∧ ssl = true ∧ gate = true) ∧
  ¬ predVeryStrong gate govEdu https ssl

/-- Modelled from the spec: the constructed predicate of the BASIC tier. -/
def predBasic (cfg : EngineConfig) (trust : ℚ)
    (gate govEdu https ssl : Bool) : Prop :=
  (cfg.basicCut ≤ trust ∧ gate = true) ∧
  ¬ predVeryStrong gate govEdu https ssl ∧
  ¬ predStrong cfg trust gate govEdu https ssl

/-- Modelled from the spec: the constructed predicate of the NONE tier. -/
def predNone (cfg : EngineConfig) (trust : ℚ)
    (gate govEdu https ssl : Bool) : Prop :=
  ¬ predVeryStrong gate govEdu https ssl ∧
  ¬ predStrong cfg trust gate govEdu https ssl ∧
  ¬ predBasic cfg trust gate govEdu https ssl

/-- Modelled from the spec: which tier predicate an input matches. -/
def tierMatches (cfg : EngineConfig) (trust : ℚ)
    (gate govEdu https ssl : Bool) : DomainTrustTier → Prop
  | .VERY_STRONG => predVeryStrong gate govEdu https ssl
  | .STRONG => predStrong cfg trust gate govEdu https ssl
  | .BASIC => predBasic cfg trust gate govEdu https ssl
  | .NONE => predNone cfg trust gate govEdu https ssl

/-- Modelled from the spec: the ScoreAttenuator of section 4.4 of the spec;
the engine code is missing from the source tree.  Rejects an MLScore outside
the unit interval with a RangeError, otherwise multiplies by one minus the
override factor. -/
def scoreAttenuator (ml ov : ℚ) : Except EngineError ℚ :=
  if ml < 0 ∨ 1 < ml then .error .rangeError
  else .ok (ml * (1 - ov))

/-- Modelled from the spec: the RiskTier enumeration (decision values). -/
inductive RiskTier where
  | ALLOW
  | MONITOR
  | WARN
  | BLOCK
deriving DecidableEq

/-- Modelled from the spec: a ThresholdProfile is an ordered triple of cut
points. -/
structure ThresholdProfile where
  t1 : ℚ
  t2 : ℚ
  t3 : ℚ
deriving DecidableEq

/-- Modelled from the spec: validity of a profile, checked at load time. -/
def ThresholdProfile.valid (p : ThresholdProfile) : Prop :=
  0 ≤ p.t1 ∧ p.t1 < p.t2 ∧ p.t2 < p.t3 ∧ p.t3 ≤ 1

/-- Modelled from the spec: configuration loading of a profile, validating
the cut points at startup and rejecting malformed configuration with a
RangeError; the engine code is missing from the source tree. -/
def loadProfile (t1 t2 t3 : ℚ) : Except EngineError ThresholdProfile :=
  if 0 ≤ t1 ∧ t1 < t2 ∧ t2 < t3 ∧ t3 ≤ 1 then .ok ⟨t1, t2, t3⟩
  else .error .rangeError

/-- Modelled from the spec: the security-focused profile with cut points
0.11, 0.40 and 0.70 (README Step 6). -/
def secProfile : ThresholdProfile :=
  ⟨11/100, 40/100, 70/100⟩

/-- Modelled from the spec: the RiskTierMapper of section 4.5 of the spec,
half-open intervals with the lower bound inclusive; the engine code is
missing from the source tree. -/
def riskTierMapper (p : ThresholdProfile) (x : ℚ) : RiskTier :=
  if x < p.t1 then .ALLOW
  else if x < p.t2 then .MONITOR
  else if x < p.t3 then .WARN
  else .BLOCK

/-- Modelled from the spec: the DecisionResult output record. -/
structure DecisionResult where
  finalScore : ℚ
  mlScore : ℚ
  trustScore : ℚ
  safetyGatePassed : Bool
  tier : DomainTrustTier
  overrideFactor : ℚ
  riskLevel : RiskTier
  decision : RiskTier
deriving DecidableEq

/-- Modelled from the spec: the DecisionEngine orchestration of section 4.6
of the spec; the engine code is missing from the source tree.  Pure function
of the feature vector, the ML score and the profile. -/
def evaluate (cfg : EngineConfig) (fv : FeatureVector) (ml : ℚ)
    (p : ThresholdProfile) : Except EngineError DecisionResult :=
  let t := trustScore fv
  let g := safetyGate cfg fv
  let tier := tierSelector cfg t g
      (featTrue fv "gov_edu_domain") (featTrue fv "https")
      (featTrue fv "web_ssl_valid")
  let ov := overrideFactor tier
  match scoreAttenuator ml ov with
  | .error e => .error e
  | .ok fs =>
      .ok { finalScore := fs, mlScore := ml, trustScore := t,
            safetyGatePassed := g, tier := tier, overrideFactor := ov,
            riskLevel := riskTierMapper p fs,
            decision := riskTierMapper p fs }

-- ════════════════════════════════════════════════════════════════
-- Part 2.  Gmail extension helpers (translated from the JavaScript
-- sources: extension/content/modules/gmail.js and
-- extension/content/content.js)
-- ════════════════════════════════════════════════════════════════

/-- The whitespace test used to embed the JavaScript trim operation. -/
def isWsChar (c : Char) : Bool :=
  c = ' ' || c = '\t' || c = '\n' || c = '\r'

/-- Embedding of the JavaScript String.prototype.trim on character lists:
drop whitespace from both ends. -/
def trimChars (l : List Char) : List Char :=
  ((l.dropWhile isWsChar).reverse.dropWhile isWsChar).reverse

/-- Embedding of JavaScript String.prototype.split on a single separator
character: the list of (possibly empty) segments between separators. -/
def splitCh (sep : Char) : List Char → List (List Char)
  | [] => [[]]
  | c :: cs =>
    match splitCh sep cs with
    | [] => [[]]
    | s :: rest => if c = sep then [] :: s :: rest else (c :: s) :: rest

/-- Embedding of JavaScript String.prototype.indexOf for a single
character: index of the first occurrence, none when absent. -/
def colonIdx? : List Char → Option Nat
  | [] => none
  | c :: cs => if c = ':' then some 0 else (colonIdx? cs).map (· + 1)

/-- JavaScript object assignment on the header record of parseRawEmail:
a later assignment to the same key overwrites the earlier one. -/
def headerInsert (m : List (List Char × List Char)) (k v : List Char) :
    List (List Char × List Char) :=
  m.filter (fun p => p.1 != k) ++ [(k, v)]

/-- One header line of gmail.js parseRawEmail: on the trimmed line, when
the colon index is positive, the trimmed slice before the colon is mapped
to the trimmed slice after it; otherwise the line is skipped. -/
def addHeaderLine (m : List (List Char × List Char)) (t : List Char) :
    List (List Char × List Char) :=
  match colonIdx? t with
  | some n => if 0 < n then
      headerInsert m (trimChars (t.take n)) (trimChars (t.drop (n + 1)))
    else m
  | none => m

/-- The header loop of gmail.js parseRawEmail: walk the lines, trimming
each; stop at the first blank (trimmed-empty) line, recording the body
start index as the next index; when no blank line occurs the body start
index stays 0, exactly as in the JavaScript source. -/
def headerScan : List (List Char) → Nat → List (List Char × List Char) →
    List (List Char × List Char) × Nat
  | [], _, acc => (acc, 0)
  | l :: ls, i, acc =>
    if (trimChars l).isEmpty then (acc, i + 1)
    else headerScan ls (i + 1) (addHeaderLine acc (trimChars l))

/-- The parsed record returned by gmail.js parseRawEmail: a header mapping
and a body snippet (the _snippetize helper with its default infinite
maximum length reduces to a trim). -/
structure ParsedEmail where
  header : List (List Char × List Char)
  bodySnippet : List Char
deriving DecidableEq

/-- Embedding of gmail.js parseRawEmail: fails on the empty string (the
falsy-input check of the source), otherwise splits on newlines, scans the
header up to the first blank line, and joins and trims the remaining lines
into the body snippet. -/
def parseRawEmail (s : String) : Except String ParsedEmail :=
  if s = "" then .error "parseRawEmail: empty or invalid input."
  else
    let lines := splitCh '\n' s.toList
    let r := headerScan lines 0 []
    .ok ⟨r.1, trimChars (List.intercalate ['\n'] (lines.drop r.2))⟩

/-- The claim-side header step for the refinement statement about
parseRawEmail: apply the per-line header update of the source to the
trimmed line. -/
def claimHeaderStep (m : List (List Char × List Char)) (l : List Char) :
    List (List Char × List Char) :=
  addHeaderLine m (trimChars l)

/-- The claim-side index of the first blank (trimmed-empty) line. -/
def firstBlank : List (List Char) → Option Nat
  | [] => none
  | l :: ls =>
    if (trimChars l).isEmpty then some 0 else (firstBlank ls).map (· + 1)

/-- The identifier alphabet of the Gmail email-open pattern: ASCII
letters, digits, underscore and hyphen. -/
def idChar (c : Char) : Bool :=
  c.isAlpha || c.isDigit || c = '_' || c = '-'

/-- A valid email or thread identifier of the Gmail URL hash: at least ten
characters, all from the identifier alphabet. -/
def validId (l : List Char) : Bool :=
  10 ≤ l.length && l.all idChar

/-- The fixed folder alternatives of the email-open pattern of content.js,
each with the leading hash mark of the URL fragment. -/
def gmailFolders : List (List Char) :=
  [("#inbox").toList, ("#sent").toList, ("#starred").toList,
   ("#drafts").toList, ("#trash").toList, ("#spam").toList,
   ("#all").toList]

/-- Embedding of content.js isGmailEmailOpen.  The anchored pattern
matches exactly the hashes of the form folder-slash-identifier where the
folder is one of the fixed names, or hash-label-slash-segment-slash-
identifier with a nonempty label segment; neither the folder names, the
label segment nor the identifier may contain a slash, so a full match is
equivalent to the slash-split of the hash having exactly the corresponding
two or three parts. -/
def isGmailEmailOpen (hash : String) : Bool :=
  if hash = "" then false
  else
    let parts := splitCh '/' hash.toList
    if parts.length == 2 then
      gmailFolders.contains (parts.getD 0 []) && validId (parts.getLastD [])
    else if parts.length == 3 then
      parts.getD 0 [] == ("#label").toList &&
      !(parts.getD 1 []).isEmpty && validId (parts.getLastD [])
    else false

/-- The trailing segment of a hash: everything after the last slash. -/
def lastSegment (l : List Char) : List Char :=
  (splitCh '/' l).getLastD []

/-- Embedding of content.js getGmailEmailId.  The searched pattern is a
slash followed by at least ten identifier characters running to the end of
the string, so a match exists exactly when the hash contains a slash and
its trailing segment is a valid identifier; the captured group is that
trailing segment. -/
def getGmailEmailId (hash : String) : Option String :=
  if hash = "" then none
  else
    let parts := splitCh '/' hash.toList
    if parts.length < 2 then none
    else
      let id := parts.getLastD []
      if validId id then some (String.mk id) else none

-- ════════════════════════════════════════════════════════════════
-- Helper lemmas for the engine
-- ════════════════════════════════════════════════════════════════

theorem contrib_nonneg (b : Bool) (w : ℚ) (hw : 0 ≤ w) : 0 ≤ contrib b w := by
  unfold contrib
  split
  · exact hw
  · exact le_refl 0

theorem trustRaw_nonneg (fv : FeatureVector) : 0 ≤ trustRaw fv := by
  unfold trustRaw
  have hh : (0:ℚ) ≤ (headerCount fv : ℚ) / 4 * (10/100) := by positivity
  repeat refine add_nonneg ?_ ?_
  all_goals first
    | exact hh
    | exact contrib_nonneg _ _ (by norm_num)

theorem scoreAttenuator_ok (ml ov : ℚ) (h0 : 0 ≤ ml) (h1 : ml ≤ 1) :
    scoreAttenuator ml ov = .ok (ml * (1 - ov)) := by
  unfold scoreAttenuator
  rw [if_neg]
  push_neg
  exact ⟨h0, h1⟩

theorem evaluate_eq (cfg : EngineConfig) (fv : FeatureVector) (ml : ℚ)
    (p : ThresholdProfile) (h0 : 0 ≤ ml) (h1 : ml ≤ 1) :
    evaluate cfg fv ml p =
      .ok { finalScore := ml * (1 - overrideFactor (tierSelector cfg
              (trustScore fv) (safetyGate cfg fv)
              (featTrue fv "gov_edu_domain") (featTrue fv "https")
              (featTrue fv "web_ssl_valid"))),
            mlScore := ml, trustScore := trustScore fv,
            safetyGatePassed := safetyGate cfg fv,
            tier := tierSelector cfg (trustScore fv) (safetyGate cfg fv)
              (featTrue fv "gov_edu_domain") (featTrue fv "https")
              (featTrue fv "web_ssl_valid"),
            overrideFactor := overrideFactor (tierSelector cfg
              (trustScore fv) (safetyGate cfg fv)
              (featTrue fv "gov_edu_domain") (featTrue fv "https")
              (featTrue fv "web_ssl_valid")),
            riskLevel := riskTierMapper p (ml * (1 - overrideFactor
              (tierSelector cfg (trustScore fv) (safetyGate cfg fv)
              (featTrue fv "gov_edu_domain") (featTrue fv "https")
              (featTrue fv "web_ssl_valid")))),
            decision := riskTierMapper p (ml * (1 - overrideFactor
              (tierSelector cfg (trustScore fv) (safetyGate cfg fv)
              (featTrue fv "gov_edu_domain") (featTrue fv "https")
              (featTrue fv "web_ssl_valid")))) } := by
  simp only [evaluate]
  rw [scoreAttenuator_ok _ _ h0 h1]

theorem tierSelector_gate_false (cfg : EngineConfig) (trust : ℚ)
    (govEdu https ssl : Bool) :
    tierSelector cfg trust false govEdu https ssl = .NONE := by
  simp [tierSelector]

-- ════════════════════════════════════════════════════════════════
-- Claim theorems for the engine (first batch)
-- ════════════════════════════════════════════════════════════════

/-- Claim C2: for every MLScore in the unit interval and every
OverrideFactor in the half-open unit interval, the ScoreAttenuator returns
FinalScore equal to MLScore times one minus the OverrideFactor; this
FinalScore is at most MLScore, lies in the unit interval, and equals MLScore
exactly when the OverrideFactor is zero; for any MLScore outside the unit
interval the ScoreAttenuator fails with a RangeError. -/
theorem scoreAttenuator_contract :
    (∀ ml ov : ℚ, 0 ≤ ml → ml ≤ 1 → 0 ≤ ov → ov < 1 →
      scoreAttenuator ml ov = .ok (ml * (1 - ov)) ∧
      ml * (1 - ov) ≤ ml ∧
      0 ≤ ml * (1 - ov) ∧ ml * (1 - ov) ≤ 1 ∧
      (ov = 0 → ml * (1 - ov) = ml)) ∧
    (∀ ml ov : ℚ, ml < 0 ∨ 1 < ml →
      scoreAttenuator ml ov = .error .rangeError) := by
  constructor
  · intro ml ov h0 h1 hov0 hov1
    refine ⟨scoreAttenuator_ok ml ov h0 h1, ?_, ?_, ?_, ?_⟩
    · nlinarith
    · nlinarith
    · nlinarith
    · intro h
      rw [h]
      ring
  · intro ml ov h
    unfold scoreAttenuator
    rw [if_pos h]

theorem scoreAttenuator_contract_witness :
    scoreAttenuator 1 0 = .ok (1 * (1 - 0)) ∧
    (1:ℚ) * (1 - 0) ≤ 1 ∧
    (0:ℚ) ≤ 1 * (1 - 0) ∧ (1:ℚ) * (1 - 0) ≤ 1 ∧
    ((0:ℚ) = 0 → (1:ℚ) * (1 - 0) = 1) :=
  scoreAttenuator_contract.1 1 0 zero_le_one (le_refl 1) (le_refl 0)
    zero_lt_one

/-- Claim C5: for every FeatureVector with well-formed numeric values, the
TrustScorer returns a TrustScore in the unit interval: the sum of the
weighted positive contributions is capped at 1.0 and is never negative,
even when the contributions would overflow 1.0. -/
theorem trustScore_bounded (fv : FeatureVector) :
    0 ≤ trustScore fv ∧ trustScore fv ≤ 1 := by
  unfold trustScore
  constructor
  · exact le_min zero_le_one (trustRaw_nonneg fv)
  · exact min_le_left 1 (trustRaw fv)

/-- Claim C1: for every FeatureVector on which the SafetyGate evaluates to
false, the selected DomainTrustTier is NONE with OverrideFactor 0 and the
FinalScore equals the MLScore exactly, regardless of TrustScore, https,
valid TLS, or the government and education categorical flag. -/
theorem gate_supremacy (cfg : EngineConfig) (fv : FeatureVector) (ml : ℚ)
    (p : ThresholdProfile) (hg : safetyGate cfg fv = false)
    (h0 : 0 ≤ ml) (h1 : ml ≤ 1) :
    ∃ r : DecisionResult, evaluate cfg fv ml p = .ok r ∧
      r.tier = .NONE ∧ r.overrideFactor = 0 ∧
      r.finalScore = r.mlScore ∧ r.mlScore = ml := by
  have ht : tierSelector cfg (trustScore fv) (safetyGate cfg fv)
      (featTrue fv "gov_edu_domain") (featTrue fv "https")
      (featTrue fv "web_ssl_valid") = .NONE := by
    rw [hg]
    exact tierSelector_gate_false cfg (trustScore fv) _ _ _
  refine ⟨_, evaluate_eq cfg fv ml p h0 h1, ?_, ?_, ?_, rfl⟩
  · simpa using ht
  · simp [ht, overrideFactor]
  · simp [ht, overrideFactor]

theorem gate_supremacy_witness :
    ∃ r : DecisionResult,
      evaluate defaultConfig [("having_ip_address", (1:ℚ))] 0 secProfile
        = .ok r ∧
      r.tier = .NONE ∧ r.overrideFactor = 0 ∧
      r.finalScore = r.mlScore ∧ r.mlScore = 0 :=
  gate_supremacy defaultConfig [("having_ip_address", (1:ℚ))] 0 secProfile
    (by decide) (le_refl 0) zero_le_one

/-- Claim C3: for every FinalScore in the unit interval and every valid
ThresholdProfile, the RiskTierMapper maps the interval below t1 to ALLOW,
from t1 up to t2 to MONITOR, from t2 up to t3 to WARN, and from t3 on to
BLOCK, a score exactly equal to a cut point escalating to the higher-risk
tier; in particular, for the profile with cut points 0.11, 0.40 and 0.70:
0.10999 maps to ALLOW, 0.11 to MONITOR, 0.40 to WARN, and 0.70 to BLOCK. -/
theorem riskTier_boundary_mapping :
    (∀ p : ThresholdProfile, p.valid → ∀ x : ℚ,
      (x < p.t1 → riskTierMapper p x = .ALLOW) ∧
      (p.t1 ≤ x → x < p.t2 → riskTierMapper p x = .MONITOR) ∧
      (p.t2 ≤ x → x < p.t3 → riskTierMapper p x = .WARN) ∧
      (p.t3 ≤ x → riskTierMapper p x = .BLOCK)) ∧
    riskTierMapper secProfile (10999/100000) = .ALLOW ∧
    riskTierMapper secProfile (11/100) = .MONITOR ∧
    riskTierMapper secProfile (40/100) = .WARN ∧
    riskTierMapper secProfile (70/100) = .BLOCK := by
  constructor
  · intro p hv x
    obtain ⟨h01, h12, h23, h31⟩ := hv
    refine ⟨?_, ?_, ?_, ?_⟩
    · intro h
      rw [riskTierMapper, if_pos h]
    · intro ha hb
      rw [riskTierMapper, if_neg (not_lt.mpr ha), if_pos hb]
    · intro ha hb
      rw [riskTierMapper, if_neg (not_lt.mpr (le_trans (le_of_lt h12) ha)),
        if_neg (not_lt.mpr ha), if_pos hb]
    · intro ha
      rw [riskTierMapper,
        if_neg (not_lt.mpr (le_trans (le_of_lt (lt_trans h12 h23)) ha)),
        if_neg (not_lt.mpr (le_trans (le_of_lt h23) ha)),
        if_neg (not_lt.mpr ha)]
  · refine ⟨?_, ?_, ?_, ?_⟩ <;> norm_num [riskTierMapper, secProfile]

theorem riskTier_boundary_mapping_witness :
    (⟨0, 1/2, 1⟩ : ThresholdProfile).valid ∧
    riskTierMapper ⟨0, 1/2, 1⟩ 1 = .BLOCK :=
  ⟨⟨le_refl 0, one_half_pos, one_half_lt_one, le_refl 1⟩,
   (riskTier_boundary_mapping.1 ⟨0, 1/2, 1⟩
     ⟨le_refl 0, one_half_pos, one_half_lt_one, le_refl 1⟩ 1).2.2.2
     (le_refl 1)⟩

/-- Claim C4: a ThresholdProfile whose cut points are not strictly
increasing inside the unit interval, such as 0.5, 0.3, 0.9, is rejected at
configuration load time with a RangeError and never silently reordered;
cut-point validation happens at startup, and evaluation never fails on
account of the profile. -/
theorem loadProfile_rejects_malformed :
    (∀ t1 t2 t3 : ℚ, ¬ (0 ≤ t1 ∧ t1 < t2 ∧ t2 < t3 ∧ t3 ≤ 1) →
      loadProfile t1 t2 t3 = .error .rangeError) ∧
    (∀ t1 t2 t3 : ℚ, (0 ≤ t1 ∧ t1 < t2 ∧ t2 < t3 ∧ t3 ≤ 1) →
      loadProfile t1 t2 t3 = .ok ⟨t1, t2, t3⟩) ∧
    loadProfile (5/10) (3/10) (9/10) = .error .rangeError ∧
    (∀ (cfg : EngineConfig) (fv : FeatureVector) (ml : ℚ)
      (p : ThresholdProfile), 0 ≤ ml → ml ≤ 1 →
      ∃ r, evaluate cfg fv ml p = .ok r) := by
  refine ⟨?_, ?_, ?_, ?_⟩
  · intro t1 t2 t3 h
    rw [loadProfile, if_neg h]
  · intro t1 t2 t3 h
    rw [loadProfile, if_pos h]
  · rw [loadProfile, if_neg (by norm_num)]
  · intro cfg fv ml p h0 h1
    exact ⟨_, evaluate_eq cfg fv ml p h0 h1⟩

theorem loadProfile_rejects_malformed_witness :
    loadProfile 0 (1/2) 1 = .ok ⟨0, 1/2, 1⟩ :=
  loadProfile_rejects_malformed.2.1 0 (1/2) 1
    ⟨le_refl 0, one_half_pos, one_half_lt_one, le_refl 1⟩

/-- Claim C6: for every input consisting of a TrustScore, a SafetyGate
result and the categorical flags, exactly one DomainTrustTier predicate of
the TierSelector matches: no input satisfies the predicates of two
different tiers, because the four tier predicates are mutually exclusive by
construction, and the TierSelector returns exactly the matching tier. -/
theorem tier_exclusivity (cfg : EngineConfig) (trust : ℚ)
    (gate govEdu https ssl : Bool) :
    (∃! t : DomainTrustTier, tierMatches cfg trust gate govEdu https ssl t) ∧
    (∀ t, tierMatches cfg trust gate govEdu https ssl t ↔
      tierSelector cfg trust gate govEdu https ssl = t) := by
  have hiff : ∀ t, tierMatches cfg trust gate govEdu https ssl t ↔
      tierSelector cfg trust gate govEdu https ssl = t := by
    intro t
    by_cases hs : cfg.strongCut ≤ trust <;>
    by_cases hb : cfg.basicCut ≤ trust <;>
    cases gate <;> cases govEdu <;> cases https <;> cases ssl <;> cases t <;>
      simp [tierMatches, tierSelector, predVeryStrong, predStrong,
        predBasic, predNone, hs, hb]
  exact ⟨⟨tierSelector cfg trust gate govEdu https ssl, (hiff _).mpr rfl,
    fun y hy => ((hiff y).mp hy).symm⟩, hiff⟩

/-- Claim C7: any feature key absent from the supplied FeatureVector is
treated as the value 0, and the evaluation never fails solely because keys
are missing. -/
theorem missing_features_default_zero :
    (∀ k : String, getF [] k = 0) ∧
    (∀ (fv : FeatureVector) (k : String), List.lookup k fv = none →
      getF fv k = 0) ∧
    (∀ (cfg : EngineConfig) (fv : FeatureVector) (ml : ℚ)
      (p : ThresholdProfile), 0 ≤ ml → ml ≤ 1 →
      ∃ r, evaluate cfg fv ml p = .ok r) := by
  refine ⟨?_, ?_, ?_⟩
  · intro k
    rfl
  · intro fv k h
    simp [getF, h]
  · intro cfg fv ml p h0 h1
    exact ⟨_, evaluate_eq cfg fv ml p h0 h1⟩

theorem missing_features_default_zero_witness :
    getF [("https", (1:ℚ))] "web_ssl_valid" = 0 ∧
    ∃ r, evaluate defaultConfig [] 0 secProfile = .ok r :=
  ⟨missing_features_default_zero.2.1 [("https", 1)] "web_ssl_valid"
    (by decide),
   missing_features_default_zero.2.2 defaultConfig [] 0 secProfile
    (le_refl 0) zero_le_one⟩

/-- Claim C8: the evaluate operation is deterministic: called twice with
identical FeatureVector, MLScore and ThresholdProfile inputs (and the same
configuration) it yields a bit-identical DecisionResult; the model is a
pure function with no mutable state across evaluations. -/
theorem evaluate_deterministic (cfg cfg2 : EngineConfig)
    (fv fv2 : FeatureVector) (ml ml2 : ℚ) (p p2 : ThresholdProfile)
    (hcfg : cfg = cfg2) (hfv : fv = fv2) (hml : ml = ml2) (hp : p = p2) :
    evaluate cfg fv ml p = evaluate cfg2 fv2 ml2 p2 := by
  subst hcfg
  subst hfv
  subst hml
  subst hp
  rfl

theorem evaluate_deterministic_witness :
    evaluate defaultConfig [] 0 secProfile
      = evaluate defaultConfig [] 0 secProfile :=
  evaluate_deterministic defaultConfig defaultConfig [] [] 0 0
    secProfile secProfile rfl rfl rfl rfl

-- ════════════════════════════════════════════════════════════════
-- Helper lemma for parseRawEmail
-- ════════════════════════════════════════════════════════════════

theorem headerScan_some (lines : List (List Char)) :
    ∀ (i : ℕ) (acc : List (List Char × List Char)) (j : ℕ),
    firstBlank lines = some j →
    headerScan lines i acc =
      ((lines.take j).foldl claimHeaderStep acc, i + j + 1) := by
  induction lines with
  | nil =>
    intro i acc j h
    simp [firstBlank] at h
  | cons l ls ih =>
    intro i acc j h
    by_cases hb : (trimChars l).isEmpty
    · simp only [firstBlank, if_pos hb] at h
      obtain rfl : (0 : ℕ) = j := Option.some.inj h
      simp [headerScan, hb]
    · simp only [firstBlank, if_neg hb] at h
      cases hf : firstBlank ls with
      | none =>
        rw [hf] at h
        simp at h
      | some k =>
        rw [hf] at h
        simp at h
        obtain rfl : k + 1 = j := h
        rw [headerScan, if_neg hb,
          ih (i + 1) (addHeaderLine acc (trimChars l)) k hf]
        simp only [List.take_succ_cons, List.foldl_cons, claimHeaderStep,
          Prod.mk.injEq]
        exact ⟨by trivial, by omega⟩

-- ════════════════════════════════════════════════════════════════
-- Claim theorems for the Gmail extension helpers
-- ════════════════════════════════════════════════════════════════

/-- Claim C9: parseRawEmail fails exactly when its input is the empty
string; for every non-empty input with a first blank (trimmed-empty) line
it returns a record whose header is obtained by mapping, for each line
before that blank line containing a colon at a positive index of the
trimmed line, the trimmed text before the colon to the trimmed text after
it, and whose bodySnippet is the trimmed newline-join of the lines after
that blank line. -/
theorem parseRawEmail_spec :
    (∀ s : String,
      parseRawEmail s = .error "parseRawEmail: empty or invalid input." ↔
        s = "") ∧
    (∀ s : String, s ≠ "" →
      ∀ j, firstBlank (splitCh '\n' s.toList) = some j →
      parseRawEmail s = .ok
        ⟨((splitCh '\n' s.toList).take j).foldl claimHeaderStep [],
         trimChars (List.intercalate ['\n']
           ((splitCh '\n' s.toList).drop (j + 1)))⟩) := by
  constructor
  · intro s
    constructor
    · intro h
      by_contra hne
      simp only [parseRawEmail, if_neg hne] at h
      exact Except.noConfusion h
    · intro h
      subst h
      rfl
  · intro s hne j hj
    simp only [parseRawEmail, if_neg hne]
    rw [headerScan_some _ 0 [] j hj]
    simp

theorem parseRawEmail_spec_witness :
    parseRawEmail "From: a\n\nhello" = .ok
      ⟨((splitCh '\n' ("From: a\n\nhello").toList).take 1).foldl
          claimHeaderStep [],
       trimChars (List.intercalate ['\n']
         ((splitCh '\n' ("From: a\n\nhello").toList).drop (1 + 1)))⟩ :=
  parseRawEmail_spec.2 "From: a\n\nhello" (by decide) 1 (by decide)

/-- Claim C10: for every URL hash string, if isGmailEmailOpen returns true
then getGmailEmailId returns a non-null email or thread identifier, namely
the trailing hash segment, which has at least ten characters all from the
identifier alphabet of letters, digits, underscore and hyphen; for the
empty hash the two functions return false and none respectively. -/
theorem gmail_open_implies_id :
    (∀ hash : String, isGmailEmailOpen hash = true →
      getGmailEmailId hash = some (String.mk (lastSegment hash.toList)) ∧
      10 ≤ (lastSegment hash.toList).length ∧
      (lastSegment hash.toList).all idChar = true) ∧
    isGmailEmailOpen "" = false ∧ getGmailEmailId "" = none := by
  refine ⟨?_, by rfl, by rfl⟩
  intro hash h
  by_cases hne : hash = ""
  · rw [hne] at h
    simp [isGmailEmailOpen] at h
  · simp only [isGmailEmailOpen, if_neg hne] at h
    simp only [getGmailEmailId, if_neg hne]
    by_cases h2 : (splitCh '/' hash.toList).length == 2
    · rw [if_pos h2] at h
      obtain ⟨hf, hv⟩ := Bool.and_eq_true_iff.mp h
      have hlen2 : (splitCh '/' hash.toList).length = 2 := by
        simpa using h2
      have hnlt : ¬ (splitCh '/' hash.toList).length < 2 := by omega
      rw [if_neg hnlt, if_pos hv]
      have hv2 := hv
      simp only [validId, Bool.and_eq_true, decide_eq_true_eq] at hv2
      exact ⟨rfl, hv2.1, hv2.2⟩
    · rw [if_neg h2] at h
      by_cases h3 : (splitCh '/' hash.toList).length == 3
      · rw [if_pos h3] at h
        obtain ⟨hfs, hv⟩ := Bool.and_eq_true_iff.mp h
        have hlen3 : (splitCh '/' hash.toList).length = 3 := by
          simpa using h3
        have hnlt : ¬ (splitCh '/' hash.toList).length < 2 := by omega
        rw [if_neg hnlt, if_pos hv]
        have hv2 := hv
        simp only [validId, Bool.and_eq_true, decide_eq_true_eq] at hv2
        exact ⟨rfl, hv2.1, hv2.2⟩
      · rw [if_neg h3] at h
        simp at h

theorem gmail_open_implies_id_witness :
    getGmailEmailId "#inbox/ABCDEFGHIJ"
      = some (String.mk (lastSegment ("#inbox/ABCDEFGHIJ").toList)) ∧
    10 ≤ (lastSegment ("#inbox/ABCDEFGHIJ").toList).length ∧
    (lastSegment ("#inbox/ABCDEFGHIJ").toList).all idChar = true :=
  gmail_open_implies_id.1 "#inbox/ABCDEFGHIJ" (by decide)
